import Mathlib

/-
Verification development for the airline booking chatbot action server.
The definitions below are a shallow embedding of the Python sources
(`actions/actions.py`, `actions/api_client.py`, `actions/db_client.py`,
`actions/models.py`): validator methods become pure Lean functions over
explicit slot-state arguments, the dispatcher becomes an accumulated list
of outbound messages, and external boundaries (the relational store, the
fuzzy matcher from thefuzz, HTTP responses) become function parameters.
-/

namespace AirlineBot

/-- A slot value as the Python action server passes it around: Python
`None`, a string, an integer, a boolean, or a list of strings (the
`destinations` / `destinations_iata` slots). -/
inductive SlotVal where
  | vnone
  | vstr (s : String)
  | vint (n : Int)
  | vbool (b : Bool)
  | vlist (l : List String)
  deriving DecidableEq, Repr

/-- Python truthiness of a slot value (`if value:`). -/
def SlotVal.truthy : SlotVal → Bool
  | .vnone => false
  | .vstr s => s != ""
  | .vint n => n != 0
  | .vbool b => b
  | .vlist l => !l.isEmpty

/-- The string content of a slot value; `""` for non-strings.  Used only
where the Python code reads a value it has just stored as a string. -/
def SlotVal.asString : SlotVal → String
  | .vstr s => s
  | _ => ""

/-- ASCII lower-casing of one character. -/
def asciiLower (c : Char) : Char :=
  if 'A' ≤ c && c ≤ 'Z' then Char.ofNat (c.toNat + 32) else c

/-- Python `str.lower()` restricted to ASCII (every string this system
lower-cases — city names, ordinal words, airline keys — is ASCII). -/
def pyLower (s : String) : String := String.mk (s.data.map asciiLower)

/-- Python truthiness of an optional string (`if s:`). -/
def pyTruthyOpt : Option String → Bool
  | some s => s != ""
  | none => false

/-- Rendering of an optional string inside an f-string
(`f"{x}"` renders Python `None` as `"None"`). -/
def pyOptStr : Option String → String
  | some s => s
  | none => "None"

/-- Rendering of an optional integer inside an f-string. -/
def pyOptInt : Option Int → String
  | some n => toString n
  | none => "None"

/-- A clickable button attached to an outbound message
(`{"title": ..., "payload": ...}` in the Python source). -/
structure Button where
  title : String
  payload : String
  deriving DecidableEq, Repr

/-- One outbound message dispatched with `dispatcher.utter_message`:
either plain text (`text=`) or a named response template (`response=`),
each optionally carrying buttons. -/
inductive BotMsg where
  | text (s : String) (buttons : List Button)
  | response (name : String) (buttons : List Button)
  deriving DecidableEq, Repr

/-- The buttons of an outbound message. -/
def BotMsg.btns : BotMsg → List Button
  | .text _ bs => bs
  | .response _ bs => bs

/-- One airport row as returned by `DatabaseClient.get_airports_for_city`:
`{"name": row[0], "iata": row[1]}`. -/
structure Airport where
  name : String
  iata : String
  deriving DecidableEq, Repr

/-- The relational store as seen by the city validators: the two queries
`get_airports_for_city` (case-insensitive lookup, returning every airport
of the city) and `get_all_city_names`. -/
structure CityDB where
  airportsFor : String → List Airport
  allCities : List String

/-- What a validator returns: the dictionary of slots to set (an
association list without duplicate keys, `None` encoded as `vnone`)
together with the messages dispatched while computing it. -/
structure ValResult where
  slots : List (String × SlotVal)
  messages : List BotMsg
  deriving DecidableEq, Repr

/-- `dict.get(key)` on a returned slot dictionary: the stored value, or
Python `None` when the key is absent. -/
def lookupSlot (slots : List (String × SlotVal)) (name : String) : SlotVal :=
  match slots.lookup name with
  | some v => v
  | none => .vnone

/-- The clarification button built for one airport in
`ValidateFlightBookingForm._validate_city`:
title `"Airport Name (IATA)"`, payload
`/select_airport{"selected_iata_code": "<iata>"}`. -/
def airportButton (a : Airport) : Button :=
  { title := a.name ++ " (" ++ a.iata ++ ")",
    payload := "/select_airport\x7b\"selected_iata_code\": \"" ++ a.iata ++ "\"\x7d" }

/-- The yes/no buttons of the city-typo clarification prompt. -/
def typoButtons (bestMatch : String) : List Button :=
  [{ title := "Yes, I meant " ++ bestMatch, payload := "/affirm" },
   { title := "No, that\x27s not it", payload := "/deny" }]

/-- Embedding of `ValidateFlightBookingForm._validate_city`
(`actions/actions.py` lines 789-858).  `extractOne` stands for
`thefuzz.process.extractOne` (best fuzzy match and its 0-100 score),
called only when the known-city list is non-empty, exactly as in the
source.  The four branches mirror the Python control flow: no airports
(with the typo-suggestion sub-branch), exactly one airport, several
airports. -/
def validateCity (db : CityDB) (extractOne : String → List String → String × Nat)
    (slotName slotValue : String) : ValResult :=
  match db.airportsFor slotValue with
  | [] =>
    let allCities := db.allCities
    let unrecognized : ValResult :=
      { slots := [(slotName, .vnone), (slotName ++ "_iata", .vnone)],
        messages :=
          [.text ("I\x27m sorry, I don\x27t recognize \x27" ++ slotValue ++
            "\x27 as a valid city.") []] }
    if allCities.isEmpty then unrecognized
    else
      let best := extractOne slotValue allCities
      if best.2 > 80 then
        { slots := [(slotName, .vnone), (slotName ++ "_iata", .vnone),
                    ("suggested_city", .vstr best.1),
                    ("ambiguous_city_slot", .vstr slotName)],
          messages := [.response "utter_clarify_city_typo" (typoButtons best.1)] }
      else unrecognized
  | [a] =>
    { slots := [(slotName, .vstr slotValue), (slotName ++ "_iata", .vstr a.iata)],
      messages := [] }
  | a1 :: a2 :: rest =>
    { slots := [(slotName, .vnone), (slotName ++ "_iata", .vnone),
                ("ambiguous_city_name", .vstr slotValue),
                ("ambiguous_city_slot", .vstr slotName)],
      messages :=
        [.response "utter_clarify_airport" ((a1 :: a2 :: rest).map airportButton)] }

/-- The seed data inserted by `DatabaseClient.initialize_schema`
(`actions/db_client.py` lines 58-76), exposed through the
case-insensitive `get_airports_for_city` query. -/
def seededAirports (city : String) : List Airport :=
  let c := pyLower city
  if c == "london" then
    [{ name := "Heathrow Airport", iata := "LHR" },
     { name := "Gatwick Airport", iata := "LGW" }]
  else if c == "paris" then [{ name := "Charles de Gaulle Airport", iata := "CDG" }]
  else if c == "new york" then
    [{ name := "John F. Kennedy Intl.", iata := "JFK" },
     { name := "LaGuardia Airport", iata := "LGA" }]
  else if c == "tokyo" then [{ name := "Haneda Airport", iata := "HND" }]
  else if c == "berlin" then [{ name := "Berlin Brandenburg Airport", iata := "BER" }]
  else if c == "san francisco" then [{ name := "San Francisco Intl.", iata := "SFO" }]
  else []

/-- The seed city names inserted by `DatabaseClient.initialize_schema`. -/
def seededCityNames : List String :=
  ["London", "Paris", "New York", "Tokyo", "Berlin", "San Francisco"]

/-- The seeded relational store, used to instantiate theorems at
concrete inputs. -/
def seededDB : CityDB :=
  { airportsFor := seededAirports, allCities := seededCityNames }

/-- A constant stand-in for the fuzzy matcher, used to instantiate
theorems at concrete inputs. -/
def constExtract (best : String) (score : Nat) :
    String → List String → String × Nat :=
  fun _ _ => (best, score)

/-- Embedding of `ValidateFlightBookingForm.validate_departure_city`:
delegates straight to the shared city helper. -/
def validateDepartureCity (db : CityDB)
    (extractOne : String → List String → String × Nat)
    (slotValue : String) : ValResult :=
  validateCity db extractOne "departure_city" slotValue

/-- Embedding of `ValidateFlightBookingForm.validate_destination_city`
(`actions/actions.py` lines 870-884): rejects a destination equal
(case-insensitively) to the departure city, otherwise delegates to the
shared city helper.  `departureCity` is the `departure_city` slot;
Python truthiness of the slot guards the comparison. -/
def validateDestinationCity (db : CityDB)
    (extractOne : String → List String → String × Nat)
    (departureCity : Option String) (slotValue : String) : ValResult :=
  match departureCity with
  | some dep =>
    if dep != "" && pyLower slotValue == pyLower dep then
      { slots := [("destination_city", .vnone), ("destination_city_iata", .vnone)],
        messages := [.text "Departure and destination cities cannot be the same." []] }
    else validateCity db extractOne "destination_city" slotValue
  | none => validateCity db extractOne "destination_city" slotValue

/-- The previous leg consulted by
`ValidateFlightBookingForm.validate_next_destination`
(`destinations[-1] if destinations else departure_city`). -/
def previousDestination (destinations : List String)
    (departureCity : Option String) : Option String :=
  match destinations.getLast? with
  | some d => some d
  | none => departureCity

/-- Embedding of `ValidateFlightBookingForm.validate_next_destination`
(`actions/actions.py` lines 902-935).  `destinations` and
`destinationsIata` are the current list slots (`or []` applied),
`departureCity` the `departure_city` slot.  A duplicate of the previous
leg is rejected with only the staging slot cleared.  On an unambiguous
valid city the pair is appended to the two lists and the staging slot
cleared; otherwise the helper result is returned unchanged. -/
def validateNextDestination (db : CityDB)
    (extractOne : String → List String → String × Nat)
    (destinations destinationsIata : List String)
    (departureCity : Option String) (slotValue : String) : ValResult :=
  let proceed : ValResult :=
    let r := validateCity db extractOne "next_destination" slotValue
    if (lookupSlot r.slots "next_destination").truthy then
      { slots :=
          [("destinations",
            .vlist (destinations ++ [(lookupSlot r.slots "next_destination").asString])),
           ("destinations_iata",
            .vlist (destinationsIata ++
              [(lookupSlot r.slots "next_destination_iata").asString])),
           ("next_destination", .vnone)],
        messages := r.messages }
    else r
  match previousDestination destinations departureCity with
  | some prev =>
    if prev != "" && pyLower slotValue == pyLower prev then
      { slots := [("next_destination", .vnone)],
        messages :=
          [.text "The next destination cannot be the same as the previous one." []] }
    else proceed
  | none => proceed

/-- The slot state consulted by
`ValidateFlightBookingForm.required_slots`. -/
structure FlightFormState where
  bookingTripType : Option String
  addMoreDestinations : Option Bool
  numberOfPassengers : Option Int
  deriving DecidableEq, Repr

/-- Embedding of `ValidateFlightBookingForm.required_slots`
(`actions/actions.py` lines 743-787).  An unset (or empty, hence
Python-falsy) trip type defers everything; otherwise the list is built
exactly in the source's order, with the multi-city
`next_destination` / `add_more_destinations` pair appended while the
flag `is not False`, and `travel_class` appended for multi-city trips or
a (truthy) passenger count above 4. -/
def requiredSlots (t : FlightFormState) : List String :=
  match t.bookingTripType with
  | none => ["booking_trip_type"]
  | some tripType =>
    if tripType == "" then ["booking_trip_type"]
    else
      let slots := ["booking_trip_type", "departure_city"]
      let slots :=
        if tripType == "one-way" then slots ++ ["destination_city"]
        else if tripType == "round trip" then slots ++ ["destination_city"]
        else if tripType == "multi-city" then
          if t.addMoreDestinations != some false then
            slots ++ ["next_destination", "add_more_destinations"]
          else slots
        else slots
      let slots := slots ++ ["departure_date"]
      let slots := if tripType == "round trip" then slots ++ ["return_date"] else slots
      let slots := slots ++ ["number_of_passengers"]
      let premium : Bool :=
        match t.numberOfPassengers with
        | some n => n != 0 && decide (n > 4)
        | none => false
      let slots :=
        if tripType == "multi-city" || premium then slots ++ ["travel_class"]
        else slots
      slots ++ ["preferred_airline", "frequent_flyer_number"]

/-- One normalized flight offer as every API client returns it:
airline display name, `HH:MM` time, price (kept as its rendered text,
since only the message title consumes it), and the provider flight
identifier. -/
structure Offer where
  airline : String
  time : String
  price : String
  flightId : String
  deriving DecidableEq, Repr

/-- The offer button built in `ActionSearchFlights.run`: title
`"<airline> at <time> for $<price>"`, payload
`/select_flight{"flight_id": "<id>"}`. -/
def offerButton (o : Offer) : Button :=
  { title := o.airline ++ " at " ++ o.time ++ " for $" ++ o.price,
    payload := "/select_flight\x7b\"flight_id\": \"" ++ o.flightId ++ "\"\x7d" }

/-- The search announcement composed in `ActionSearchFlights.run`
(lines 689-699): round-trip wording when a return date is (truthily)
set, one-way wording otherwise, with the seat-preference postfix when a
saved preference was found. -/
def flightSearchPreamble (depCityName destCityName : Option String)
    (depDate returnDate : Option String) (passengers : Option Int)
    (seatPref : Option String) : BotMsg :=
  let base :=
    if pyTruthyOpt returnDate then
      "Okay! Searching for round trip flights for " ++ pyOptInt passengers ++
        " passenger(s) from " ++ pyOptStr depCityName ++ " to " ++
        pyOptStr destCityName ++ ", departing on " ++ pyOptStr depDate ++
        " and returning on " ++ pyOptStr returnDate ++ "."
    else
      "Okay! Searching for one-way flights for " ++ pyOptInt passengers ++
        " passenger(s) from " ++ pyOptStr depCityName ++ " to " ++
        pyOptStr destCityName ++ " for " ++ pyOptStr depDate ++ "."
  let base :=
    if pyTruthyOpt seatPref then
      base ++ " I\x27ll keep in mind you prefer a " ++ pyOptStr seatPref ++ " seat."
    else base
  .text base []

/-- Embedding of `ActionSearchFlights.run` (`actions/actions.py`
lines 649-735) as the list of messages it dispatches.  The database
pool is taken as unavailable (so no saved preference supplements the
slots beyond the `seatPref` parameter, which models the looked-up seat
preference), and `flightOptions` is the flight client's `search` result:
`none` for a failed call, a (possibly empty) offer list otherwise.
Multi-city trips short-circuit before any API call, as in the source. -/
def actionSearchFlights (tripType : Option String)
    (depCityName destCityName : Option String)
    (destinationsNames : List String)
    (depDate returnDate : Option String) (passengers : Option Int)
    (seatPref : Option String)
    (flightOptions : Option (List Offer)) : List BotMsg :=
  if tripType == some "multi-city" then
    [.text ("Okay! Searching for a multi-city trip for " ++ pyOptInt passengers ++
        " passenger(s) along the route: " ++
        String.intercalate " -> " (pyOptStr depCityName :: destinationsNames) ++
        ", starting on " ++ pyOptStr depDate ++ ".") [],
     .text ("Multi-city searches are complex. For this demo, I can\x27t show you " ++
        "the results directly, but I have all the details for the search!") []]
  else
    let msgs := [flightSearchPreamble depCityName destCityName depDate returnDate
      passengers seatPref]
    match flightOptions with
    | none => msgs ++ [.response "utter_api_failure" []]
    | some [] =>
      msgs ++ [.text "I\x27m sorry, I couldn\x27t find any flights for that route and date." []]
    | some (o :: os) =>
      msgs ++ [.text "Here are some flights I found:" ((o :: os).map offerButton)]

/-- ASCII uppercase letter, the `[A-Z]` regex class. -/
def isUpperAZ (c : Char) : Bool := 'A' ≤ c && c ≤ 'Z'

/-- ASCII decimal digit, the `\d` regex class (restricted to ASCII). -/
def isDigit09 (c : Char) : Bool := '0' ≤ c && c ≤ '9'

/-- The regex `^[A-Z]{2}\d{8}$` of the seeded `awesomeairlines` format,
as a full-match predicate on the character sequence. -/
def matchesAwesomeFormat (s : String) : Bool :=
  match s.data with
  | c1 :: c2 :: rest =>
    isUpperAZ c1 && isUpperAZ c2 && rest.length == 8 && rest.all isDigit09
  | _ => false

/-- The regex `^[A-Z]-\d{7}$` of the seeded `flyhigh` format, as a
full-match predicate on the character sequence. -/
def matchesFlyHighFormat (s : String) : Bool :=
  match s.data with
  | c1 :: c2 :: rest =>
    isUpperAZ c1 && c2 == '-' && rest.length == 7 && rest.all isDigit09
  | _ => false

/-- One entry of `FREQUENT_FLYER_FORMATS`: the compiled regex (as a
full-match predicate) and the example shown on mismatch. -/
structure FFFormat where
  regexMatches : String → Bool
  exampleStr : String

/-- Embedding of the module-level `FREQUENT_FLYER_FORMATS` dictionary
(`actions/actions.py` lines 25-35), keyed by lower-cased airline name. -/
def frequentFlyerFormats : List (String × FFFormat) :=
  [("awesomeairlines", { regexMatches := matchesAwesomeFormat, exampleStr := "AA12345678" }),
   ("flyhigh", { regexMatches := matchesFlyHighFormat, exampleStr := "F-1234567" })]

/-- Embedding of
`ValidateFlightBookingForm.validate_frequent_flyer_number`
(`actions/actions.py` lines 1027-1069).  `intentName` is the latest
message's intent, `preferredAirline` the `preferred_airline` slot,
`slotValue` the extracted number.  Branch order follows the source:
deny, falsy value, falsy airline, unregistered airline, regex check. -/
def validateFrequentFlyerNumber (intentName : String)
    (preferredAirline : Option String) (slotValue : Option String) : ValResult :=
  if intentName == "deny" then
    { slots := [("frequent_flyer_number", .vnone)],
      messages := [.text "Okay, no problem." []] }
  else if !(pyTruthyOpt slotValue) then
    { slots := [("frequent_flyer_number", .vnone)], messages := [] }
  else if !(pyTruthyOpt preferredAirline) then
    { slots := [("frequent_flyer_number", .vnone)],
      messages := [.text ("I need to know your preferred airline before I can " ++
        "validate your frequent flyer number.") []] }
  else
    let v := pyOptStr slotValue
    let airline := pyOptStr preferredAirline
    match frequentFlyerFormats.lookup (pyLower airline) with
    | none =>
      { slots := [("frequent_flyer_number", .vstr v)],
        messages :=
          [.text ("Great, I\x27ve added your frequent flyer number " ++ v ++ ".") []] }
    | some fmt =>
      if fmt.regexMatches v then
        { slots := [("frequent_flyer_number", .vstr v)],
          messages :=
            [.text ("Great, I\x27ve added your frequent flyer number " ++ v ++ ".") []] }
      else
        { slots := [("frequent_flyer_number", .vnone)],
          messages :=
            [.text ("That doesn\x27t look like a valid frequent flyer number for " ++
              airline ++ ". It should look something like this: " ++ fmt.exampleStr ++
              ". Let\x27s skip it for now.") []] }

/-- Embedding of `ValidateFlightBookingForm.validate_preferred_airline`
(`actions/actions.py` lines 1007-1025): a deny intent clears the slot
with an acknowledgment; otherwise the extracted value is passed through,
with an acknowledgment only when it is truthy. -/
def validatePreferredAirline (intentName : String)
    (slotValue : Option String) : ValResult :=
  if intentName == "deny" then
    { slots := [("preferred_airline", .vnone)],
      messages := [.text "Okay, I\x27ll search all available airlines." []] }
  else
    let stored : SlotVal :=
      match slotValue with
      | some s => .vstr s
      | none => .vnone
    { slots := [("preferred_airline", stored)],
      messages :=
        if pyTruthyOpt slotValue then
          [.text ("Okay, I\x27ll look for flights on " ++ pyOptStr slotValue ++ ".") []]
        else [] }

/-- Embedding of `ValidateCarBookingForm.validate_pickup_location`
(`actions/actions.py` lines 1279-1320): falsy input clears the slot;
with no known cities the input is accepted as given (the source's
explicit fallback); an exact case-insensitive match returns the
canonical name; a fuzzy score above 80 stages the typo suggestion; and
otherwise the slot is cleared with a rejection message. -/
def validatePickupLocation (db : CityDB)
    (extractOne : String → List String → String × Nat)
    (slotValue : Option String) : ValResult :=
  if !(pyTruthyOpt slotValue) then
    { slots := [("pickup_location", .vnone)], messages := [] }
  else
    let v := pyOptStr slotValue
    let allCities := db.allCities
    if allCities.isEmpty then
      { slots := [("pickup_location", .vstr v)], messages := [] }
    else
      match allCities.find? (fun c => pyLower c == pyLower v) with
      | some c => { slots := [("pickup_location", .vstr c)], messages := [] }
      | none =>
        let best := extractOne v allCities
        if best.2 > 80 then
          { slots := [("pickup_location", .vnone),
                      ("suggested_city", .vstr best.1),
                      ("ambiguous_city_slot", .vstr "pickup_location")],
            messages := [.response "utter_clarify_city_typo" (typoButtons best.1)] }
        else
          { slots := [("pickup_location", .vnone)],
            messages :=
              [.text ("I\x27m sorry, I don\x27t recognize \x27" ++ v ++
                "\x27 as a valid location.") []] }

/-- Embedding of `ActionHandleCorrection._ordinal_to_int`
(`actions/actions.py` lines 439-448): the lower-cased ordinal word is
looked up in the fixed table, with `"last"` mapping to `-1` and
anything unknown to Python `None`. -/
def ordinalToInt (s : String) : Option Int :=
  let l := pyLower s
  if l == "first" || l == "1st" then some 0
  else if l == "second" || l == "2nd" then some 1
  else if l == "third" || l == "3rd" then some 2
  else if l == "fourth" || l == "4th" then some 3
  else if l == "last" then some (-1)
  else none

/-- Python list-index assignment `l[i] = x` for the indices reachable in
the correction handler (where a negative `i` counts from the end and is
in range). -/
def pySetAt (l : List String) (i : Int) (x : String) : List String :=
  if 0 ≤ i then l.set i.toNat x
  else l.set (l.length - i.natAbs) x

/-- Whether the Python index `i` refers to an existing element of a list
of length `n` (`l[i]` does not raise): `0 ≤ i < n` or `-n ≤ i < 0`. -/
def pyIndexValid (i : Int) (n : Nat) : Bool :=
  if 0 ≤ i then decide (i < n) else i.natAbs ≤ n

/-- Embedding of the multi-city destination branch of
`ActionHandleCorrection._handle_city_correction` (`actions/actions.py`
lines 466-491): with an empty destinations list nothing happens; an
ordinal entity is mapped through the ordinal table and accepted only
when `abs(index) < len(destinations)` (otherwise a rejection message and
no change); the corrected city is validated through the shared city
helper and, when it comes back set, replaces the targeted element of
both parallel lists. -/
def handleCityCorrectionMulti (db : CityDB)
    (extractOne : String → List String → String × Nat)
    (destinations destinationsIata : List String)
    (ordinal : Option String) (newCity : String) :
    List (String × SlotVal) × List BotMsg :=
  if destinations.isEmpty then ([], [])
  else
    let targetIndex : Option Int :=
      match ordinal with
      | none => some (-1)
      | some w =>
        match ordinalToInt w with
        | some i => if i.natAbs < destinations.length then some i else none
        | none => none
    match targetIndex with
    | none =>
      ([],
       [.text ("I\x27m sorry, I can\x27t correct the \x27" ++
          (match ordinal with | some w => w | none => "") ++
          "\x27 destination as there are only " ++
          toString destinations.length ++ " destinations in your trip.") []])
    | some idx =>
      let r := validateCity db extractOne "next_destination" newCity
      if (lookupSlot r.slots "next_destination").truthy then
        ([("destinations",
           .vlist (pySetAt destinations idx
             (lookupSlot r.slots "next_destination").asString)),
          ("destinations_iata",
           .vlist (pySetAt destinationsIata idx
             (lookupSlot r.slots "next_destination_iata").asString))],
         r.messages)
      else ([], r.messages)

/-- A state-mutation event returned to the dialogue host: `SlotSet` or
`FollowupAction`. -/
inductive Event where
  | slotSet (name : String) (value : SlotVal)
  | followup (name : String)
  deriving DecidableEq, Repr

/-- Python `dict[k] = v` on an association list: overwrite the existing
key in place, else append. -/
def dictSet (m : List (String × SlotVal)) (k : String) (v : SlotVal) :
    List (String × SlotVal) :=
  if m.any (fun p => p.1 == k) then
    m.map (fun p => if p.1 == k then (k, v) else p)
  else m ++ [(k, v)]

/-- Python `dict.update` on association lists. -/
def dictUpdate (m d : List (String × SlotVal)) : List (String × SlotVal) :=
  d.foldl (fun acc p => dictSet acc p.1 p.2) m

/-- The accumulation loop of `ActionHandleCorrection.run`
(`actions/actions.py` lines 525-541): each entity's validator produced
one slot dictionary (`updates`), and every non-empty one is merged into
`corrected_slots` (an empty dictionary is skipped by the `if
correction:` guard). -/
def applyCorrections (updates : List (List (String × SlotVal))) :
    List (String × SlotVal) :=
  updates.foldl (fun acc d => if d.isEmpty then acc else dictUpdate acc d) []

/-- Embedding of the decision tail of `ActionHandleCorrection.run`
(`actions/actions.py` lines 543-551): if no corrections accumulated, or
every accumulated value is Python `None`, apologize and only re-run the
review action; otherwise emit one `SlotSet` per corrected slot followed
by the review follow-up. -/
def handleCorrectionRun (updates : List (List (String × SlotVal))) :
    List Event × List BotMsg :=
  let corrected := applyCorrections updates
  if corrected.isEmpty || corrected.all (fun p => p.2 == SlotVal.vnone) then
    ([.followup "action_review_and_confirm"],
     [.text "I\x27m sorry, I didn\x27t understand the correction. Let\x27s review again." []])
  else
    (corrected.map (fun p => .slotSet p.1 p.2) ++
       [.followup "action_review_and_confirm"], [])

/-- One outbound network request of a flight API client. -/
inductive NetCall where
  | tokenRequest
  | searchRequest
  deriving DecidableEq, Repr

/-- The credential/token state of `AmadeusApiClient`: the two
environment credentials and the in-memory cached OAuth2 token with its
expiry clock value. -/
structure AmadeusClient where
  clientId : Option String
  clientSecret : Option String
  accessToken : Option String
  tokenExpiryTime : Int
  deriving DecidableEq, Repr

/-- A client fresh out of `AmadeusApiClient.__init__`: no cached token,
expiry clock 0, credentials as configured. -/
def amadeusFresh (clientId clientSecret : Option String) : AmadeusClient :=
  { clientId := clientId, clientSecret := clientSecret,
    accessToken := none, tokenExpiryTime := 0 }

/-- Embedding of `AmadeusApiClient._get_access_token`
(`actions/api_client.py` lines 169-190).  `tokenResponse` models the
token endpoint: `some (token, expires_in)` for a successful POST, `none`
for a failed one.  A truthy unexpired cached token is returned without
any request; otherwise the POST is attempted unconditionally — the
source never checks the credentials here. -/
def amadeusGetAccessToken (c : AmadeusClient) (now : Int)
    (tokenResponse : Option (String × Int)) :
    Option String × AmadeusClient × List NetCall :=
  if pyTruthyOpt c.accessToken && decide (now < c.tokenExpiryTime) then
    (c.accessToken, c, [])
  else
    match tokenResponse with
    | some (tok, expiresIn) =>
      (some tok,
       { c with accessToken := some tok, tokenExpiryTime := now + expiresIn - 300 },
       [.tokenRequest])
    | none => (none, c, [.tokenRequest])

/-- Embedding of `AmadeusApiClient.search` (`actions/api_client.py`
lines 207-272) with the wire layer parameterized: `cacheLookup` is the
shared-result-cache content for the request key (checked only after the
credential gate), and `searchResponse` the already-transformed offers of
a successful flight-offers GET (`none` for a transport failure).  The
function returns the search result together with the network requests
issued. -/
def amadeusSearch (c : AmadeusClient) (now : Int)
    (tokenResponse : Option (String × Int))
    (cacheLookup : Option (List Offer))
    (searchResponse : Option (List Offer)) :
    Option (List Offer) × List NetCall :=
  let step := amadeusGetAccessToken c now tokenResponse
  let tok := step.1
  let calls := step.2.2
  if !(pyTruthyOpt tok) || !(pyTruthyOpt c.clientId) || !(pyTruthyOpt c.clientSecret) then
    (none, calls)
  else
    match cacheLookup with
    | some cached => (some cached, calls)
    | none =>
      match searchResponse with
      | some resp => (some resp, calls ++ [.searchRequest])
      | none => (none, calls ++ [.searchRequest])

/-- Embedding of `DuffelApiClient.search` (`actions/api_client.py`
lines 302-378) with the wire layer parameterized as in
`amadeusSearch`: a falsy API key returns the failure result before the
cache check and before any request is issued. -/
def duffelSearch (apiKey : Option String)
    (cacheLookup : Option (List Offer))
    (searchResponse : Option (List Offer)) :
    Option (List Offer) × List NetCall :=
  if !(pyTruthyOpt apiKey) then (none, [])
  else
    match cacheLookup with
    | some cached => (some cached, [])
    | none =>
      match searchResponse with
      | some resp => (some resp, [.searchRequest])
      | none => (none, [.searchRequest])

/-- A table-level constraint of a `CREATE TABLE` statement. -/
inductive TableConstraint where
  | primaryKey (cols : List String)
  deriving DecidableEq, Repr

/-- One column definition of a `CREATE TABLE` statement, with its type
text and its column-level `PRIMARY KEY` / `NOT NULL` markers. -/
structure ColumnDef where
  colName : String
  sqlType : String
  columnPrimaryKey : Bool
  notNull : Bool
  deriving DecidableEq, Repr

/-- A `CREATE TABLE` statement: name, columns, table-level constraints. -/
structure TableDef where
  tableName : String
  columns : List ColumnDef
  constraints : List TableConstraint
  deriving DecidableEq, Repr

/-- The `user_preferences` statement exactly as
`DatabaseClient.initialize_schema` executes it (`actions/db_client.py`
lines 37-44): `user_id VARCHAR(255) PRIMARY KEY`,
`preference_key VARCHAR(50) NOT NULL`,
`preference_value VARCHAR(255) NOT NULL`,
`PRIMARY KEY (user_id, preference_key)`. -/
def userPreferencesTable : TableDef :=
  { tableName := "user_preferences",
    columns :=
      [{ colName := "user_id", sqlType := "VARCHAR(255)",
         columnPrimaryKey := true, notNull := false },
       { colName := "preference_key", sqlType := "VARCHAR(50)",
         columnPrimaryKey := false, notNull := true },
       { colName := "preference_value", sqlType := "VARCHAR(255)",
         columnPrimaryKey := false, notNull := true }],
    constraints := [.primaryKey ["user_id", "preference_key"]] }

/-- The `user_preferences` table as declared by the `UserPreference`
model in `actions/models.py` lines 24-28: both `user_id` and
`preference_key` carry `primary_key=True`, forming one composite primary
key, and `preference_value` is `NOT NULL`. -/
def userPreferenceModelTable : TableDef :=
  { tableName := "user_preferences",
    columns :=
      [{ colName := "user_id", sqlType := "VARCHAR(255)",
         columnPrimaryKey := false, notNull := true },
       { colName := "preference_key", sqlType := "VARCHAR(50)",
         columnPrimaryKey := false, notNull := true },
       { colName := "preference_value", sqlType := "VARCHAR(255)",
         columnPrimaryKey := false, notNull := true }],
    constraints := [.primaryKey ["user_id", "preference_key"]] }

/-- Every primary-key constraint a `CREATE TABLE` statement declares:
one singleton per column-level `PRIMARY KEY` marker plus every
table-level `PRIMARY KEY` constraint. -/
def primaryKeyConstraints (t : TableDef) : List (List String) :=
  (t.columns.filter (fun c => c.columnPrimaryKey)).map (fun c => [c.colName]) ++
    t.constraints.map (fun c => match c with | .primaryKey cols => cols)

/-- The city/IATA pairing discipline of one returned slot dictionary:
the city slot and its `<slot>_iata` partner are either both absent, or
both present and set/cleared together. -/
def iataPaired (slots : List (String × SlotVal)) (citySlot : String) : Bool :=
  match slots.lookup citySlot, slots.lookup (citySlot ++ "_iata") with
  | none, none => true
  | some v, some w => (v == SlotVal.vnone) == (w == SlotVal.vnone)
  | _, _ => false

/-- A slot name never equals itself with the `_iata` suffix appended. -/
lemma append_iata_beq_self (s : String) : ((s ++ "_iata") == s) = false := by
  rw [beq_eq_false_iff_ne]
  intro h
  have h2 := congrArg String.length h
  rw [String.length_append, show ("_iata".length) = 5 from rfl] at h2
  omega

/-- C1.  For every city-validation call of the flight form with a given
city name, the returned slot assignment follows the four-way case
analysis of the data store's airport list: exactly one airport sets the
slot and its paired IATA slot; several airports clear the pair, stage
the ambiguity slots, and attach one clarification button per airport
carrying its IATA code; zero airports with known cities and a fuzzy
score above 80 clear the pair and stage the suggestion slots; zero
airports with the score at most 80, or with no known cities, clear the
pair with the unrecognized-city message. -/
theorem validate_city_case_analysis (db : CityDB)
    (ex : String → List String → String × Nat) (slotName slotValue : String) :
    (∀ a, db.airportsFor slotValue = [a] →
      validateCity db ex slotName slotValue =
        { slots := [(slotName, .vstr slotValue), (slotName ++ "_iata", .vstr a.iata)],
          messages := [] }) ∧
    (∀ a1 a2 rest, db.airportsFor slotValue = a1 :: a2 :: rest →
      validateCity db ex slotName slotValue =
        { slots := [(slotName, .vnone), (slotName ++ "_iata", .vnone),
                    ("ambiguous_city_name", .vstr slotValue),
                    ("ambiguous_city_slot", .vstr slotName)],
          messages := [.response "utter_clarify_airport"
            ((a1 :: a2 :: rest).map airportButton)] } ∧
      ∀ a ∈ a1 :: a2 :: rest, (airportButton a).payload =
        "/select_airport\x7b\"selected_iata_code\": \"" ++ a.iata ++ "\"\x7d") ∧
    (db.airportsFor slotValue = [] → db.allCities ≠ [] →
      (ex slotValue db.allCities).2 > 80 →
      validateCity db ex slotName slotValue =
        { slots := [(slotName, .vnone), (slotName ++ "_iata", .vnone),
                    ("suggested_city", .vstr (ex slotValue db.allCities).1),
                    ("ambiguous_city_slot", .vstr slotName)],
          messages := [.response "utter_clarify_city_typo"
            (typoButtons (ex slotValue db.allCities).1)] }) ∧
    (db.airportsFor slotValue = [] →
      (db.allCities = [] ∨ (ex slotValue db.allCities).2 ≤ 80) →
      validateCity db ex slotName slotValue =
        { slots := [(slotName, .vnone), (slotName ++ "_iata", .vnone)],
          messages := [.text ("I\x27m sorry, I don\x27t recognize \x27" ++ slotValue ++
            "\x27 as a valid city.") []] }) := by
  refine ⟨?_, ?_, ?_, ?_⟩
  · intro a h
    simp [validateCity, h]
  · intro a1 a2 rest h
    refine ⟨by simp [validateCity, h], ?_⟩
    intro a _
    rfl
  · intro h hc hs
    rw [validateCity, h]
    simp only [List.isEmpty_iff, if_neg hc, if_pos hs]
  · intro h hd
    rw [validateCity, h]
    rcases hd with hc | hs
    · simp [hc]
    · simp only [List.isEmpty_iff]
      split
      · rfl
      · rw [if_neg (by omega)]

/-- Looking up a slot name at the head of a returned dictionary whose
second entry is the `_iata` partner reduces the pairing check to the
two stored values. -/
lemma iataPaired_cons_pair (slotName : String) (x y : SlotVal)
    (rest : List (String × SlotVal)) :
    iataPaired ((slotName, x) :: (slotName ++ "_iata", y) :: rest) slotName =
      ((x == SlotVal.vnone) == (y == SlotVal.vnone)) := by
  simp [iataPaired, List.lookup, append_iata_beq_self]

/-- Every branch of the shared city helper returns the city slot and
its `_iata` partner together, both set or both cleared. -/
lemma validateCity_iata_paired (db : CityDB)
    (ex : String → List String → String × Nat) (slotName slotValue : String) :
    iataPaired (validateCity db ex slotName slotValue).slots slotName = true := by
  rcases h : db.airportsFor slotValue with _ | ⟨a, _ | ⟨b, rest⟩⟩
  · rw [validateCity, h]
    dsimp only
    split
    · rw [iataPaired_cons_pair]; rfl
    · split
      · rw [iataPaired_cons_pair]; rfl
      · rw [iataPaired_cons_pair]; rfl
  · rw [validateCity, h, iataPaired_cons_pair]; rfl
  · rw [validateCity, h, iataPaired_cons_pair]; rfl

/-- Witness for C1: the seeded store lists exactly one airport for
Paris, and validating it fills the slot pair with `CDG`. -/
theorem validate_city_case_analysis_witness :
    seededDB.airportsFor "Paris" =
      [{ name := "Charles de Gaulle Airport", iata := "CDG" }] ∧
    validateCity seededDB (constExtract "London" 86) "departure_city" "Paris" =
      { slots := [("departure_city", SlotVal.vstr "Paris"),
                  ("departure_city" ++ "_iata", SlotVal.vstr "CDG")],
        messages := [] } :=
  ⟨by decide,
   (validate_city_case_analysis seededDB (constExtract "London" 86)
      "departure_city" "Paris").1
     { name := "Charles de Gaulle Airport", iata := "CDG" } (by decide)⟩

/-- C5, counterexample.  The duplicate-city rejection branch of
`validate_next_destination` clears `next_destination` without touching
`next_destination_iata` in the same returned assignment, so the
city/IATA pairing invariant fails there as the claim states it. -/
theorem next_destination_unpaired_counterexample :
    (validateNextDestination seededDB (constExtract "" 0) ["Rome"] [] none
      "Rome").slots = [("next_destination", SlotVal.vnone)] ∧
    iataPaired (validateNextDestination seededDB (constExtract "" 0) ["Rome"] []
      none "Rome").slots "next_destination" = false := by
  constructor
  · rfl
  · rfl

/-- C5, amended.  The pairing invariant holds for every assignment
returned by the shared city helper (hence by `validate_departure_city`)
and by `validate_destination_city`; `validate_next_destination`,
however, clears only `next_destination` on its duplicate-city rejection
branch. -/
theorem city_iata_pairing_amended (db : CityDB)
    (ex : String → List String → String × Nat) :
    (∀ slotName slotValue,
      iataPaired (validateCity db ex slotName slotValue).slots slotName = true) ∧
    (∀ slotValue,
      iataPaired (validateDepartureCity db ex slotValue).slots "departure_city" = true) ∧
    (∀ dep slotValue,
      iataPaired (validateDestinationCity db ex dep slotValue).slots
        "destination_city" = true) ∧
    (∀ dests iatas dep v prev, previousDestination dests dep = some prev →
      prev ≠ "" → pyLower v = pyLower prev →
      (validateNextDestination db ex dests iatas dep v).slots =
        [("next_destination", SlotVal.vnone)]) := by
  refine ⟨fun n v => validateCity_iata_paired db ex n v,
    fun v => validateCity_iata_paired db ex "departure_city" v, ?_, ?_⟩
  · intro dep slotValue
    cases dep with
    | none => exact validateCity_iata_paired db ex "destination_city" slotValue
    | some d =>
      rw [validateDestinationCity]
      split
      · rfl
      · exact validateCity_iata_paired db ex "destination_city" slotValue
  · intro dests iatas dep v prev hprev hne hlow
    rw [validateNextDestination, hprev]
    dsimp only
    rw [if_pos]
    rw [Bool.and_eq_true, bne_iff_ne, beq_iff_eq]
    exact ⟨hne, hlow⟩

/-- Witness for the amended C5: correcting the next destination to the
previous leg (case-insensitively) returns only the cleared staging
slot. -/
theorem city_iata_pairing_amended_witness :
    previousDestination ["Paris"] none = some "Paris" ∧
    ("Paris" : String) ≠ "" ∧
    pyLower "paris" = pyLower "Paris" ∧
    (validateNextDestination seededDB (constExtract "" 0) ["Paris"] [] none
      "paris").slots = [("next_destination", SlotVal.vnone)] :=
  ⟨by decide, by decide, by decide,
   (city_iata_pairing_amended seededDB (constExtract "" 0)).2.2.2
     ["Paris"] [] none "paris" "Paris" (by decide) (by decide) (by decide)⟩

/-- The passenger count, when set, is at most 4 (the non-premium case
of the trip-type flow). -/
def passengersAtMostFour (t : FlightFormState) : Prop :=
  ∀ n, t.numberOfPassengers = some n → n ≤ 4

/-- C3.  `required_slots` returns exactly `[booking_trip_type]` with no
trip type set; the fixed seven-slot sequence for one-way (passenger
count at most 4); the same with `return_date` after `departure_date`
for round trip; for multi-city the `[next_destination,
add_more_destinations]` pair exactly while the flag is not explicitly
false, with `travel_class` always present; and `travel_class` is
included iff the trip is multi-city or the set passenger count exceeds
4. -/
theorem required_slots_spec (t : FlightFormState) :
    (t.bookingTripType = none → requiredSlots t = ["booking_trip_type"]) ∧
    (t.bookingTripType = some "one-way" → passengersAtMostFour t →
      requiredSlots t =
        ["booking_trip_type", "departure_city", "destination_city",
         "departure_date", "number_of_passengers", "preferred_airline",
         "frequent_flyer_number"]) ∧
    (t.bookingTripType = some "round trip" → passengersAtMostFour t →
      requiredSlots t =
        ["booking_trip_type", "departure_city", "destination_city",
         "departure_date", "return_date", "number_of_passengers",
         "preferred_airline", "frequent_flyer_number"]) ∧
    (t.bookingTripType = some "multi-city" →
      requiredSlots t =
        ["booking_trip_type", "departure_city"] ++
          (if t.addMoreDestinations ≠ some false then
            ["next_destination", "add_more_destinations"] else []) ++
          ["departure_date", "number_of_passengers", "travel_class",
           "preferred_airline", "frequent_flyer_number"]) ∧
    (∀ s, t.bookingTripType = some s →
      (s = "one-way" ∨ s = "round trip" ∨ s = "multi-city") →
      ("travel_class" ∈ requiredSlots t ↔
        (s = "multi-city" ∨ ∃ n, t.numberOfPassengers = some n ∧ n > 4))) := by
  obtain ⟨tt, amd, np⟩ := t
  refine ⟨?_, ?_, ?_, ?_, ?_⟩
  · intro h
    simp only at h
    rw [h, requiredSlots]
  · intro h hp
    simp only at h
    subst h
    rcases hnp : np with _ | n
    · rw [requiredSlots]
      rfl
    · have hn : n ≤ 4 := hp n (by simp [hnp])
      rw [requiredSlots]
      simp only
      rw [if_neg (by decide)]
      have h4 : decide (n > 4) = false := by
        simp only [decide_eq_false_iff_not]
        omega
      simp [h4]
  · intro h hp
    simp only at h
    subst h
    rcases hnp : np with _ | n
    · rw [requiredSlots]
      rfl
    · have hn : n ≤ 4 := hp n (by simp [hnp])
      rw [requiredSlots]
      simp only
      rw [if_neg (by decide)]
      have h4 : decide (n > 4) = false := by
        simp only [decide_eq_false_iff_not]
        omega
      simp [h4]
  · intro h
    simp only at h
    subst h
    rw [requiredSlots]
    simp only
    rw [if_neg (by decide)]
    rcases amd with _ | b
    · simp
    · rcases b with _ | _
      · simp
      · simp
  · intro s h hs
    simp only at h
    subst h
    rcases hs with hs | hs | hs <;> subst hs
    · rw [requiredSlots]
      simp only
      rw [if_neg (by decide)]
      rcases hnp : np with _ | n
      · simp
      · rcases h4 : decide (n > 4) with _ | _
        · simp only [decide_eq_false_iff_not] at h4
          simp only [decide_eq_true_eq] at *
          constructor
          · intro hmem
            simp at hmem
            rw [if_neg (fun hc => h4 hc.2)] at hmem
            simp at hmem
          · rintro (hc | ⟨m, hm, hgt⟩)
            · exact absurd hc (by decide)
            · injection hm with hm
              omega
        · simp only [decide_eq_true_eq] at h4
          have hne : (n != 0) = true := by
            rw [bne_iff_ne]
            omega
          constructor
          · intro _
            right
            exact ⟨n, rfl, h4⟩
          · intro _
            simp [hne, h4]
    · rw [requiredSlots]
      simp only
      rw [if_neg (by decide)]
      rcases hnp : np with _ | n
      · simp
      · rcases h4 : decide (n > 4) with _ | _
        · simp only [decide_eq_false_iff_not] at h4
          constructor
          · intro hmem
            simp at hmem
            rw [if_neg (fun hc => h4 hc.2)] at hmem
            simp at hmem
          · rintro (hc | ⟨m, hm, hgt⟩)
            · exact absurd hc (by decide)
            · injection hm with hm
              omega
        · simp only [decide_eq_true_eq] at h4
          have hne : (n != 0) = true := by
            rw [bne_iff_ne]
            omega
          constructor
          · intro _
            right
            exact ⟨n, rfl, h4⟩
          · intro _
            simp [hne, decide_eq_true_eq, h4]
    · constructor
      · intro _
        left
        rfl
      · intro _
        rw [requiredSlots]
        simp only
        rw [if_neg (by decide)]
        rcases amd with _ | b
        · simp
        · rcases b with _ | _ <;> simp

/-- Witness for C3: a round-trip booking for two passengers requires
the eight slots in order, with `return_date` after `departure_date`. -/
theorem required_slots_spec_witness :
    (FlightFormState.mk (some "round trip") none (some 2)).bookingTripType =
      some "round trip" ∧
    passengersAtMostFour (FlightFormState.mk (some "round trip") none (some 2)) ∧
    requiredSlots (FlightFormState.mk (some "round trip") none (some 2)) =
      ["booking_trip_type", "departure_city", "destination_city",
       "departure_date", "return_date", "number_of_passengers",
       "preferred_airline", "frequent_flyer_number"] :=
  ⟨rfl, fun n h => by injection h with h; omega,
   (required_slots_spec (FlightFormState.mk (some "round trip") none (some 2))).2.2.1
     rfl (fun n h => by injection h with h; omega)⟩

/-- C2.  On a one-way or round-trip booking the flight-search action's
outcome is exactly one of three, determined by the client result: an
absent result emits the API-failure response and no message carries any
button; an empty list emits the could-not-find-flights message; a
non-empty list emits a message with exactly one button per offer whose
payload carries that offer's flight identifier. -/
theorem search_flights_outcomes (tripType depCityName destCityName : Option String)
    (destinationsNames : List String) (depDate returnDate : Option String)
    (passengers : Option Int) (seatPref : Option String)
    (h : tripType ≠ some "multi-city") :
    (actionSearchFlights tripType depCityName destCityName destinationsNames
        depDate returnDate passengers seatPref none =
      [flightSearchPreamble depCityName destCityName depDate returnDate
        passengers seatPref, .response "utter_api_failure" []] ∧
      ∀ m ∈ actionSearchFlights tripType depCityName destCityName
        destinationsNames depDate returnDate passengers seatPref none,
        m.btns = []) ∧
    (actionSearchFlights tripType depCityName destCityName destinationsNames
        depDate returnDate passengers seatPref (some []) =
      [flightSearchPreamble depCityName destCityName depDate returnDate
        passengers seatPref,
       .text "I\x27m sorry, I couldn\x27t find any flights for that route and date." []]) ∧
    (∀ o os,
      actionSearchFlights tripType depCityName destCityName destinationsNames
        depDate returnDate passengers seatPref (some (o :: os)) =
      [flightSearchPreamble depCityName destCityName depDate returnDate
        passengers seatPref,
       .text "Here are some flights I found:" ((o :: os).map offerButton)] ∧
      ((o :: os).map offerButton).length = (o :: os).length ∧
      ∀ f ∈ o :: os, (offerButton f).payload =
        "/select_flight\x7b\"flight_id\": \"" ++ f.flightId ++ "\"\x7d") := by
  have hb : (tripType == some "multi-city") = false := by
    rw [beq_eq_false_iff_ne]
    exact h
  refine ⟨⟨?_, ?_⟩, ?_, ?_⟩
  · rw [actionSearchFlights, hb]
    rfl
  · intro m hm
    rw [actionSearchFlights, hb] at hm
    simp only [Bool.false_eq_true, if_false, List.singleton_append,
      List.mem_cons, List.not_mem_nil, or_false] at hm
    rcases hm with hm | hm
    · subst hm
      rfl
    · subst hm
      rfl
  · rw [actionSearchFlights, hb]
    rfl
  · intro o os
    refine ⟨?_, by rw [List.length_map], fun f _ => rfl⟩
    rw [actionSearchFlights, hb]
    rfl

/-- Witness for C2: a one-way search returning the single mock offer
`AA123` yields exactly one button whose payload carries `AA123`. -/
theorem search_flights_outcomes_witness :
    (some "one-way" : Option String) ≠ some "multi-city" ∧
    actionSearchFlights (some "one-way") (some "Paris") (some "London") []
        (some "2025-01-16") none (some 2) none
        (some [⟨"AwesomeAirlines", "08:00", "350", "AA123"⟩]) =
      [flightSearchPreamble (some "Paris") (some "London") (some "2025-01-16")
        none (some 2) none,
       .text "Here are some flights I found:"
        [offerButton ⟨"AwesomeAirlines", "08:00", "350", "AA123"⟩]] ∧
    (offerButton ⟨"AwesomeAirlines", "08:00", "350", "AA123"⟩).payload =
      "/select_flight\x7b\"flight_id\": \"AA123\"\x7d" :=
  ⟨by decide,
   ((search_flights_outcomes (some "one-way") (some "Paris") (some "London") []
       (some "2025-01-16") none (some 2) none (by decide)).2.2
     ⟨"AwesomeAirlines", "08:00", "350", "AA123"⟩ []).1,
   by decide⟩

/-- C8.  A deny intent clears the frequent-flyer slot; otherwise, with
an airline set and a non-empty value, the value is accepted as given
when no format is registered for the airline, and with a registered
format it is accepted exactly when the airline's regex matches,
the mismatch case clearing the slot with the expected example shown. -/
theorem frequent_flyer_validation (intentName : String)
    (airline : Option String) (value : Option String) :
    (intentName = "deny" →
      validateFrequentFlyerNumber intentName airline value =
        { slots := [("frequent_flyer_number", SlotVal.vnone)],
          messages := [.text "Okay, no problem." []] }) ∧
    (∀ a v, intentName ≠ "deny" → airline = some a → a ≠ "" →
      value = some v → v ≠ "" →
      (frequentFlyerFormats.lookup (pyLower a) = none →
        validateFrequentFlyerNumber intentName airline value =
          { slots := [("frequent_flyer_number", SlotVal.vstr v)],
            messages := [.text ("Great, I\x27ve added your frequent flyer number " ++
              v ++ ".") []] }) ∧
      (∀ fmt, frequentFlyerFormats.lookup (pyLower a) = some fmt →
        (fmt.regexMatches v = true →
          validateFrequentFlyerNumber intentName airline value =
            { slots := [("frequent_flyer_number", SlotVal.vstr v)],
              messages := [.text ("Great, I\x27ve added your frequent flyer number " ++
                v ++ ".") []] }) ∧
        (fmt.regexMatches v = false →
          validateFrequentFlyerNumber intentName airline value =
            { slots := [("frequent_flyer_number", SlotVal.vnone)],
              messages :=
                [.text ("That doesn\x27t look like a valid frequent flyer number for " ++
                  a ++ ". It should look something like this: " ++
                  fmt.exampleStr ++ ". Let\x27s skip it for now.") []] }))) := by
  refine ⟨?_, ?_⟩
  · intro h
    subst h
    rfl
  · intro a v hni ha hae hv hve
    subst ha
    subst hv
    have h1 : (intentName == "deny") = false := by
      rw [beq_eq_false_iff_ne]
      exact hni
    have h2 : (v != "") = true := by
      rw [bne_iff_ne]
      exact hve
    have h3 : (a != "") = true := by
      rw [bne_iff_ne]
      exact hae
    refine ⟨?_, ?_⟩
    · intro hl
      rw [validateFrequentFlyerNumber, h1]
      simp only [Bool.false_eq_true, if_false, pyTruthyOpt, h2, h3, Bool.not_true,
        pyOptStr, hl]
    · intro fmt hl
      refine ⟨?_, ?_⟩
      · intro hm
        rw [validateFrequentFlyerNumber, h1]
        simp only [Bool.false_eq_true, if_false, pyTruthyOpt, h2, h3, Bool.not_true,
          pyOptStr, hl, hm, if_true]
      · intro hm
        rw [validateFrequentFlyerNumber, h1]
        simp only [Bool.false_eq_true, if_false, pyTruthyOpt, h2, h3, Bool.not_true,
          pyOptStr, hl, hm]

/-- Witness for C8, evaluating the seeded formats on the documented
examples and applying the claim theorem to the accepted one. -/
theorem frequent_flyer_validation_witness :
    matchesAwesomeFormat "AA12345678" = true ∧
    matchesAwesomeFormat "aa12345678" = false ∧
    matchesAwesomeFormat "AA1234567" = false ∧
    matchesAwesomeFormat "1234567890" = false ∧
    matchesFlyHighFormat "F-1234567" = true ∧
    matchesFlyHighFormat "F-123456" = false ∧
    matchesFlyHighFormat "f-1234567" = false ∧
    validateFrequentFlyerNumber "inform" (some "AwesomeAirlines")
        (some "AA12345678") =
      { slots := [("frequent_flyer_number", SlotVal.vstr "AA12345678")],
        messages := [.text "Great, I\x27ve added your frequent flyer number AA12345678." []] } :=
  ⟨by decide, by decide, by decide, by decide, by decide, by decide, by decide, by
    have h := (((frequent_flyer_validation "inform" (some "AwesomeAirlines")
        (some "AA12345678")).2 "AwesomeAirlines" "AA12345678" (by decide) rfl
        (by decide) rfl (by decide)).2
      { regexMatches := matchesAwesomeFormat, exampleStr := "AA12345678" } rfl).1
      (by decide)
    simpa using h⟩

/-- C7, counterexample.  With no known city names on file the pickup
location is accepted as given, not rejected: the source's explicit
fallback (`actions/actions.py` lines 1291-1294) contradicts the claim's
"rejected outright whenever no known city names exist". -/
theorem pickup_location_no_cities_counterexample :
    validatePickupLocation { airportsFor := fun _ => [], allCities := [] }
        (constExtract "" 0) (some "Atlantis") =
      { slots := [("pickup_location", SlotVal.vstr "Atlantis")], messages := [] } ∧
    lookupSlot (validatePickupLocation { airportsFor := fun _ => [], allCities := [] }
        (constExtract "" 0) (some "Atlantis")).slots "pickup_location" ≠
      SlotVal.vnone := by
  constructor
  · rfl
  · decide

/-- C7, amended.  For a non-empty pickup-location input: an exact
case-insensitive match returns the canonical name; with no known city
names the input is accepted as given (fallback); otherwise a fuzzy
score above 80 stages the suggestion and clears the slot, and a score
at most 80 clears the slot with a rejection message. -/
theorem pickup_location_validation_amended (db : CityDB)
    (ex : String → List String → String × Nat) (v : String) (hv : v ≠ "") :
    (db.allCities = [] →
      validatePickupLocation db ex (some v) =
        { slots := [("pickup_location", SlotVal.vstr v)], messages := [] }) ∧
    (∀ c, db.allCities.find? (fun c => pyLower c == pyLower v) = some c →
      validatePickupLocation db ex (some v) =
        { slots := [("pickup_location", SlotVal.vstr c)], messages := [] }) ∧
    (db.allCities ≠ [] →
      db.allCities.find? (fun c => pyLower c == pyLower v) = none →
      (ex v db.allCities).2 > 80 →
      validatePickupLocation db ex (some v) =
        { slots := [("pickup_location", SlotVal.vnone),
                    ("suggested_city", SlotVal.vstr (ex v db.allCities).1),
                    ("ambiguous_city_slot", SlotVal.vstr "pickup_location")],
          messages := [.response "utter_clarify_city_typo"
            (typoButtons (ex v db.allCities).1)] }) ∧
    (db.allCities ≠ [] →
      db.allCities.find? (fun c => pyLower c == pyLower v) = none →
      (ex v db.allCities).2 ≤ 80 →
      validatePickupLocation db ex (some v) =
        { slots := [("pickup_location", SlotVal.vnone)],
          messages := [.text ("I\x27m sorry, I don\x27t recognize \x27" ++ v ++
            "\x27 as a valid location.") []] }) := by
  have ht : pyTruthyOpt (some v) = true := by
    simp [pyTruthyOpt, hv]
  refine ⟨?_, ?_, ?_, ?_⟩
  · intro hc
    rw [validatePickupLocation, ht]
    simp [hc, pyOptStr]
  · intro c hc
    rw [validatePickupLocation, ht]
    have hne : db.allCities ≠ [] := by
      intro h0
      rw [h0] at hc
      simp [List.find?] at hc
    simp only [Bool.not_true, Bool.false_eq_true, if_false, List.isEmpty_iff,
      pyOptStr, hc, if_neg hne]
  · intro hne hf hs
    rw [validatePickupLocation, ht]
    simp only [Bool.not_true, Bool.false_eq_true, if_false, List.isEmpty_iff,
      pyOptStr, hf, if_neg hne, if_pos hs]
  · intro hne hf hs
    rw [validatePickupLocation, ht]
    simp only [Bool.not_true, Bool.false_eq_true, if_false, List.isEmpty_iff,
      pyOptStr, hf, if_neg hne]
    rw [if_neg (by omega)]

/-- Witness for the amended C7: `"london"` exactly matches the seeded
`"London"` case-insensitively and is canonicalized. -/
theorem pickup_location_validation_amended_witness :
    ("london" : String) ≠ "" ∧
    seededDB.allCities.find? (fun c => pyLower c == pyLower "london") =
      some "London" ∧
    validatePickupLocation seededDB (constExtract "" 0) (some "london") =
      { slots := [("pickup_location", SlotVal.vstr "London")], messages := [] } :=
  ⟨by decide, by decide,
   (pickup_location_validation_amended seededDB (constExtract "" 0) "london"
      (by decide)).2.1 "London" (by decide)⟩

/-- C6, counterexample.  The ordinal `"last"` (index `-1`) refers to the
existing last leg of a one-destination trip, yet the handler rejects it
(`abs(-1) < 1` fails) with a message and changes no leg. -/
theorem ordinal_last_single_leg_counterexample :
    pyIndexValid (-1) 1 = true ∧
    handleCityCorrectionMulti seededDB (constExtract "" 0) ["Paris"] ["CDG"]
        (some "last") "Berlin" =
      ([], [.text ("I\x27m sorry, I can\x27t correct the \x27last\x27 destination " ++
        "as there are only 1 destinations in your trip.") []]) ∧
    (handleCityCorrectionMulti seededDB (constExtract "" 0) ["Paris"] ["CDG"]
        (some "last") "Berlin").1 = [] := by
  refine ⟨by decide, ?_, by decide⟩
  decide

/-- C6, amended.  Against a non-empty multi-city destinations list, with
the corrected city validating to a unique airport: no ordinal replaces
the last leg; an ordinal maps through first/1st→0 … last→−1 and the leg
at that index is replaced in both parallel lists exactly when
`abs(index)` is strictly below the number of legs (so `"last"` needs at
least two legs); otherwise — unknown ordinal word or `abs(index)` not
below the leg count — a rejection message is emitted and no leg
changes. -/
theorem city_correction_multi_amended (db : CityDB)
    (ex : String → List String → String × Nat)
    (dests iatas : List String) (city iata : String)
    (hne : dests ≠ [])
    (hr : validateCity db ex "next_destination" city =
      { slots := [("next_destination", SlotVal.vstr city),
                  ("next_destination_iata", SlotVal.vstr iata)], messages := [] })
    (hcity : city ≠ "") :
    (ordinalToInt "first" = some 0 ∧ ordinalToInt "1st" = some 0 ∧
     ordinalToInt "second" = some 1 ∧ ordinalToInt "2nd" = some 1 ∧
     ordinalToInt "third" = some 2 ∧ ordinalToInt "3rd" = some 2 ∧
     ordinalToInt "fourth" = some 3 ∧ ordinalToInt "4th" = some 3 ∧
     ordinalToInt "last" = some (-1)) ∧
    (handleCityCorrectionMulti db ex dests iatas none city =
      ([("destinations", .vlist (dests.set (dests.length - 1) city)),
        ("destinations_iata", .vlist (iatas.set (iatas.length - 1) iata))], [])) ∧
    (∀ w i, ordinalToInt w = some i → 0 ≤ i → i.natAbs < dests.length →
      handleCityCorrectionMulti db ex dests iatas (some w) city =
        ([("destinations", .vlist (dests.set i.toNat city)),
          ("destinations_iata", .vlist (iatas.set i.toNat iata))], [])) ∧
    (∀ w, ordinalToInt w = some (-1) → 2 ≤ dests.length →
      handleCityCorrectionMulti db ex dests iatas (some w) city =
        ([("destinations", .vlist (dests.set (dests.length - 1) city)),
          ("destinations_iata", .vlist (iatas.set (iatas.length - 1) iata))], [])) ∧
    (∀ w i, ordinalToInt w = some i → dests.length ≤ i.natAbs →
      handleCityCorrectionMulti db ex dests iatas (some w) city =
        ([], [.text ("I\x27m sorry, I can\x27t correct the \x27" ++ w ++
          "\x27 destination as there are only " ++ toString dests.length ++
          " destinations in your trip.") []])) ∧
    (∀ w, ordinalToInt w = none →
      handleCityCorrectionMulti db ex dests iatas (some w) city =
        ([], [.text ("I\x27m sorry, I can\x27t correct the \x27" ++ w ++
          "\x27 destination as there are only " ++ toString dests.length ++
          " destinations in your trip.") []])) := by
  have hE : dests.isEmpty = false := by
    simp [List.isEmpty_iff, hne]
  have hb : (city != "") = true := by
    rw [bne_iff_ne]
    exact hcity
  refine ⟨by refine ⟨rfl, rfl, rfl, rfl, rfl, rfl, rfl, rfl, rfl⟩, ?_, ?_, ?_, ?_, ?_⟩
  · rw [handleCityCorrectionMulti, hE]
    simp only [Bool.false_eq_true, if_false, hr, lookupSlot, List.lookup,
      beq_self_eq_true, SlotVal.truthy, hb, if_true, SlotVal.asString, pySetAt]
    rw [if_neg (by omega)]
    rfl
  · intro w i hw h0 hlen
    rw [handleCityCorrectionMulti, hE]
    simp only [Bool.false_eq_true, if_false, hw, if_pos hlen, hr, lookupSlot,
      List.lookup, beq_self_eq_true, SlotVal.truthy, hb, if_true,
      SlotVal.asString, pySetAt]
    simp only [if_pos h0]
    rfl
  · intro w hw h2
    rw [handleCityCorrectionMulti, hE]
    have hlen : ((-1 : Int)).natAbs < dests.length := by
      simp only [Int.natAbs_neg, Int.natAbs_one]
      omega
    simp only [Bool.false_eq_true, if_false, hw, if_pos hlen, hr, lookupSlot,
      List.lookup, beq_self_eq_true, SlotVal.truthy, hb, if_true,
      SlotVal.asString, pySetAt]
    rw [if_neg (by omega)]
    rfl
  · intro w i hw hlen
    rw [handleCityCorrectionMulti, hE]
    simp only [Bool.false_eq_true, if_false, hw, if_neg (by omega : ¬ i.natAbs < dests.length)]
  · intro w hw
    rw [handleCityCorrectionMulti, hE]
    simp only [Bool.false_eq_true, if_false, hw]

/-- Witness for the amended C6: correcting the first leg of
`[Paris, Rome]` to Berlin replaces that leg in both lists. -/
theorem city_correction_multi_amended_witness :
    (["Paris", "Rome"] : List String) ≠ [] ∧
    validateCity seededDB (constExtract "" 0) "next_destination" "Berlin" =
      { slots := [("next_destination", SlotVal.vstr "Berlin"),
                  ("next_destination_iata", SlotVal.vstr "BER")], messages := [] } ∧
    ordinalToInt "first" = some 0 ∧
    handleCityCorrectionMulti seededDB (constExtract "" 0) ["Paris", "Rome"]
        ["CDG", "FCO"] (some "first") "Berlin" =
      ([("destinations", SlotVal.vlist ["Berlin", "Rome"]),
        ("destinations_iata", SlotVal.vlist ["BER", "FCO"])], []) := by
  refine ⟨by decide, by decide, by decide, ?_⟩
  have h := (city_correction_multi_amended seededDB (constExtract "" 0)
      ["Paris", "Rome"] ["CDG", "FCO"] "Berlin" "BER" (by decide) (by decide)
      (by decide)).2.2.1 "first" 0 rfl (by decide) (by decide)
  exact h

/-- C4, counterexample.  An Amadeus client constructed without
credentials still attempts the OAuth2 token POST on `search`: the
result is the absent value, but the network-call trace is not empty —
it contains the token request. -/
theorem amadeus_token_request_counterexample :
    (amadeusSearch (amadeusFresh none none) 1000 none none none).1 = none ∧
    (amadeusSearch (amadeusFresh none none) 1000 none none none).2 =
      [NetCall.tokenRequest] ∧
    (amadeusSearch (amadeusFresh none none) 1000 none none none).2 ≠ [] := by
  refine ⟨rfl, rfl, by decide⟩

/-- C4, amended.  A search without credentials always returns the
absent result and never issues a search request; the Duffel client
(and every API-key-gated client) issues no network call at all, while
the Amadeus OAuth2 client first attempts a token request whenever no
valid cached token exists. -/
theorem search_without_credentials_amended :
    (∀ apiKey cacheLookup searchResponse, pyTruthyOpt apiKey = false →
      duffelSearch apiKey cacheLookup searchResponse = (none, [])) ∧
    (∀ c : AmadeusClient, ∀ now tokenResponse cacheLookup searchResponse,
      pyTruthyOpt c.clientId = false ∨ pyTruthyOpt c.clientSecret = false →
      (amadeusSearch c now tokenResponse cacheLookup searchResponse).1 = none ∧
      NetCall.searchRequest ∉
        (amadeusSearch c now tokenResponse cacheLookup searchResponse).2) ∧
    (∀ clientId clientSecret now tokenResponse cacheLookup searchResponse,
      pyTruthyOpt clientId = false ∨ pyTruthyOpt clientSecret = false →
      (amadeusSearch (amadeusFresh clientId clientSecret) now tokenResponse
        cacheLookup searchResponse).2 = [NetCall.tokenRequest]) := by
  have hgate : ∀ (c : AmadeusClient) (tok : Option String),
      pyTruthyOpt c.clientId = false ∨ pyTruthyOpt c.clientSecret = false →
      (!(pyTruthyOpt tok) || !(pyTruthyOpt c.clientId) ||
        !(pyTruthyOpt c.clientSecret)) = true := by
    intro c tok h
    rcases h with h | h <;> simp [h]
  refine ⟨?_, ?_, ?_⟩
  · intro apiKey cacheLookup searchResponse h
    rw [duffelSearch.eq_def, h]
    rfl
  · intro c now tokenResponse cacheLookup searchResponse h
    rw [amadeusSearch.eq_def]
    dsimp only
    rw [hgate c (amadeusGetAccessToken c now tokenResponse).1 h]
    simp only [if_true]
    refine ⟨by trivial, ?_⟩
    rw [amadeusGetAccessToken.eq_def]
    split
    · simp
    · cases tokenResponse with
      | none => simp
      | some p => simp
  · intro clientId clientSecret now tokenResponse cacheLookup searchResponse h
    rw [amadeusSearch.eq_def]
    dsimp only
    rw [hgate (amadeusFresh clientId clientSecret)
      (amadeusGetAccessToken (amadeusFresh clientId clientSecret) now
        tokenResponse).1 h]
    simp only [if_true]
    rw [amadeusGetAccessToken.eq_def]
    rw [if_neg (by simp [amadeusFresh, pyTruthyOpt])]
    cases tokenResponse with
    | none => rfl
    | some p => rfl

/-- Witness for the amended C4: a credential-less Duffel client returns
the absent result with an empty network trace. -/
theorem search_without_credentials_amended_witness :
    pyTruthyOpt (none : Option String) = false ∧
    duffelSearch none none none = (none, ([] : List NetCall)) :=
  ⟨by decide, search_without_credentials_amended.1 none none none (by decide)⟩

/-- C9.  The executed `CREATE TABLE` for `user_preferences` declares
two primary-key constraints — a column-level one on `user_id` and the
composite `(user_id, preference_key)` — while the declarative model of
the same table declares exactly the composite key.  PostgreSQL rejects
a table with more than one primary key, so the statement as written
cannot run; the model (and the spec) captures the intent. -/
theorem user_preferences_primary_keys :
    primaryKeyConstraints userPreferencesTable =
      [["user_id"], ["user_id", "preference_key"]] ∧
    (primaryKeyConstraints userPreferencesTable).length = 2 ∧
    primaryKeyConstraints userPreferenceModelTable =
      [["user_id", "preference_key"]] ∧
    (userPreferencesTable.columns.map (fun c => (c.colName, c.sqlType))) =
      [("user_id", "VARCHAR(255)"), ("preference_key", "VARCHAR(50)"),
       ("preference_value", "VARCHAR(255)")] := by
  refine ⟨rfl, rfl, rfl, rfl⟩

/-- C10.  Whenever every value of the accumulated corrected-slots
mapping is Python `None` (or nothing accumulated at all), the
correction handler apologizes and returns only the review follow-up,
with no slot-set event. -/
theorem correction_all_none_rejected (updates : List (List (String × SlotVal)))
    (h : ∀ p ∈ applyCorrections updates, p.2 = SlotVal.vnone) :
    handleCorrectionRun updates =
      ([Event.followup "action_review_and_confirm"],
       [.text "I\x27m sorry, I didn\x27t understand the correction. Let\x27s review again." []]) ∧
    ∀ n v, Event.slotSet n v ∉ (handleCorrectionRun updates).1 := by
  have hall : (applyCorrections updates).all (fun p => p.2 == SlotVal.vnone) = true := by
    rw [List.all_eq_true]
    intro p hp
    rw [beq_iff_eq]
    exact h p hp
  have hrun : handleCorrectionRun updates =
      ([Event.followup "action_review_and_confirm"],
       [.text "I\x27m sorry, I didn\x27t understand the correction. Let\x27s review again." []]) := by
    rw [handleCorrectionRun]
    rw [hall]
    simp
  refine ⟨hrun, ?_⟩
  intro n v hmem
  rw [hrun] at hmem
  simp at hmem

/-- Witness for C10: a denied preferred airline validly clears its slot,
and that lone clearing correction is treated as not understood. -/
theorem correction_all_none_rejected_witness :
    (validatePreferredAirline "deny" (some "Lufthansa")).slots =
      [("preferred_airline", SlotVal.vnone)] ∧
    applyCorrections [(validatePreferredAirline "deny" (some "Lufthansa")).slots] =
      [("preferred_airline", SlotVal.vnone)] ∧
    handleCorrectionRun [(validatePreferredAirline "deny" (some "Lufthansa")).slots] =
      ([Event.followup "action_review_and_confirm"],
       [.text "I\x27m sorry, I didn\x27t understand the correction. Let\x27s review again." []]) :=
  ⟨by decide, by decide,
   (correction_all_none_rejected
      [(validatePreferredAirline "deny" (some "Lufthansa")).slots] (by decide)).1⟩

end AirlineBot
